import Mathlib

/-!
# home-control — session/authentication and credential-proxy core, shallow embedding

This file embeds the credential-proxy core of the home-control repository in
Lean 4 and proves the specified properties about it:

* the AES-256-GCM encryption wrapper and its key resolution
  (`backend/utils/encryption.js`, concatenated into `stateConversion.js` here);
* the Hive credential store (`HiveCredentialsManager`);
* the Hive Cognito auth state machine (`HiveAuthService`);
* the credential-extraction middleware (modelled from the specification,
  since `middleware/auth.js` and `sessionManager.js` ship only as tests).

Machine integers are `Nat`; JavaScript truthiness on strings and numbers is
made explicit (`none`/`""`/`0` are falsy); thrown exceptions become `Except`
or `Option` results; file-system and crypto-library calls become explicit
inputs and outputs.
-/

namespace HomeControl

/-! ## Encryption utility (`backend/utils/encryption.js`)

The source wraps Node's `crypto` AES-256-GCM: `encrypt` draws a random 96-bit
IV, runs the cipher, and returns ciphertext, IV, and 128-bit auth tag (base64
encoded); `decrypt` sets the auth tag and throws if it does not verify.  The
cipher itself is an external collaborator: GCM encrypts by XOR-ing the
plaintext with the AES-CTR keystream determined by (key, iv) and computes the
tag as a deterministic function of (key, iv, ciphertext).  We model the
keystream and the tag function as explicit parameters (`ks`, `gh`), the random
IV as an explicit argument, bytes as `Nat`, and omit the bijective base64
wire-encoding. -/

/-- The `{encrypted, iv, authTag}` object returned by `encryption.encrypt`. -/
structure EncryptedPayload where
  encrypted : List Nat
  iv : Nat
  authTag : Nat
deriving DecidableEq, Repr

/-- XOR a byte list against the keystream `ks`, starting at counter `i` —
CTR-mode keystream application as performed inside AES-GCM. -/
def xorKeystream (ks : Nat → Nat) : Nat → List Nat → List Nat
  | _, [] => []
  | i, b :: rest => (b ^^^ ks i) :: xorKeystream ks (i + 1) rest

/-- `encryption.encrypt(plaintext, key)` with the random IV made explicit.
`ks key iv` is the AES-CTR keystream, `gh key iv ct` the GHASH auth tag. -/
def encrypt (ks : String → Nat → Nat → Nat) (gh : String → Nat → List Nat → Nat)
    (plaintext : List Nat) (key : String) (iv : Nat) : EncryptedPayload :=
  let ct := xorKeystream (ks key iv) 0 plaintext
  { encrypted := ct, iv := iv, authTag := gh key iv ct }

/-- `encryption.decrypt(encrypted, iv, authTag, key)`: the decipher recomputes
the auth tag and `decipher.final` throws when it does not verify; the thrown
exception is modelled as `none`. -/
def decrypt (ks : String → Nat → Nat → Nat) (gh : String → Nat → List Nat → Nat)
    (p : EncryptedPayload) (key : String) : Option (List Nat) :=
  if gh key p.iv p.encrypted = p.authTag then
    some (xorKeystream (ks key p.iv) 0 p.encrypted)
  else
    none

theorem xorKeystream_involutive (ks : Nat → Nat) :
    ∀ (i : Nat) (l : List Nat), xorKeystream ks i (xorKeystream ks i l) = l := by
  intro i l
  induction l generalizing i with
  | nil => rfl
  | cons b rest ih =>
      simp [xorKeystream, Nat.xor_assoc, Nat.xor_self, Nat.xor_zero, ih]

/-! ### Key validation and resolution -/

/-- One character of the `/^[a-f0-9]{64}$/` class in `_validateKey`. -/
def isLowerHexChar (c : Char) : Bool :=
  ('a' ≤ c && c ≤ 'f') || ('0' ≤ c && c ≤ '9')

/-- The two error messages `_validateKey` can throw. -/
inductive KeyError where
  | invalidLength
  | invalidFormat
deriving DecidableEq, Repr

/-- `encryption._validateKey(key)`: throws unless the key is exactly 64
lowercase-hex characters (`!key || key.length !== 64`, then the regex). -/
def validateKey (key : String) : Except KeyError Unit :=
  if key = "" || key.length ≠ 64 then
    .error .invalidLength
  else if !(key.toList.all isLowerHexChar) then
    .error .invalidFormat
  else
    .ok ()

/-- Boolean form of `_validateKey` succeeding. -/
def isValidKey (key : String) : Bool :=
  key.length = 64 && key.toList.all isLowerHexChar

/-- JavaScript truthiness of an optional string (`undefined`/`null`/`""` are
falsy). -/
def truthyS : Option String → Bool
  | none => false
  | some s => s ≠ ""

/-- JavaScript `String.prototype.trim()`: strip whitespace from both ends. -/
def jsTrim (s : String) : String :=
  String.mk (((s.toList.dropWhile Char.isWhitespace).reverse.dropWhile Char.isWhitespace).reverse)

/-- `encryption.getEncryptionKey()`.

State and environment are explicit inputs: `cachedKey` is `this._cachedKey`,
`envKey` is `process.env.HIVE_ENCRYPTION_KEY`, `fileKey` is the contents of
`this.keyFilePath` (`none` when `existsSync` is false or reading throws), and
`freshKey` is the value `generateKey()` would draw.  The result carries the
resolved key and whether a newly generated key was persisted to the key file.
A validation failure on the file key is caught by the source's `try`/`catch`
(which logs a warning) and falls through to generate-and-persist; a validation
failure on the environment key propagates. -/
def getEncryptionKey (cachedKey envKey fileKey : Option String) (freshKey : String) :
    Except KeyError (String × Bool) :=
  if truthyS cachedKey then
    .ok (cachedKey.getD "", false)
  else if truthyS envKey then
    match validateKey (envKey.getD "") with
    | .error e => .error e
    | .ok _ => .ok (envKey.getD "", false)
  else
    match fileKey with
    | some f =>
        match validateKey (jsTrim f) with
        | .ok _ => .ok (jsTrim f, false)
        | .error _ => .ok (freshKey, true)
    | none => .ok (freshKey, true)

/-! ## Hive credential store (`HiveCredentialsManager`)

The manager keeps `username`, `password`, `sessionToken`, `sessionExpiresAt`
as instance fields (JavaScript `null` or a value: `Option` here) and rewrites
a single JSON file on every mutation via `_saveCredentials`.  The encryption
of the password inside `_saveCredentials` (`encrypt(password, key)` after
`getEncryptionKey()`) is an injected function `encryptPw`; the file system is
the explicit `disk` component.  JavaScript truthiness of the fields is spelled
out with `truthyS` / `truthyN`. -/

/-- JavaScript truthiness of an optional number (`undefined`/`null`/`0` are
falsy). -/
def truthyN : Option Nat → Bool
  | none => false
  | some n => n ≠ 0

/-- The base64 triple produced by the encryption utility and written to the
credentials file. -/
structure EncryptedRecord where
  encrypted : String
  iv : String
  authTag : String
deriving DecidableEq, Repr

/-- In-memory fields of `HiveCredentialsManager`. -/
structure HiveState where
  username : Option String
  password : Option String
  sessionToken : Option String
  sessionExpiresAt : Option Nat
deriving DecidableEq, Repr

/-- The JSON object `_saveCredentials` writes. -/
structure CredFile where
  username : Option String
  encryptedPassword : Option EncryptedRecord
  sessionToken : Option String
  sessionExpiresAt : Option Nat
deriving DecidableEq, Repr

/-- The fresh `const data = {}` of `_saveCredentials`. -/
def emptyFile : CredFile :=
  { username := none, encryptedPassword := none, sessionToken := none, sessionExpiresAt := none }

/-- `_saveCredentials`: build the data object — username and encrypted
password when both are truthy, session token and expiry when both are
truthy — and write it. -/
def buildFileData (encryptPw : String → EncryptedRecord) (s : HiveState) : CredFile :=
  let withCreds : CredFile :=
    match s.username, s.password with
    | some u, some p =>
        if u ≠ "" && p ≠ "" then
          { emptyFile with username := some u, encryptedPassword := some (encryptPw p) }
        else emptyFile
    | _, _ => emptyFile
  match s.sessionToken, s.sessionExpiresAt with
  | some t, some e =>
      if t ≠ "" && e ≠ 0 then
        { withCreds with sessionToken := some t, sessionExpiresAt := some e }
      else withCreds
  | _, _ => withCreds

/-- The manager together with its persisted file (`none` = file absent or
never written by this process). -/
structure Manager where
  mem : HiveState
  disk : Option CredFile
deriving DecidableEq, Repr

/-- All-`null` field state (constructor before `_loadCredentials`). -/
def initialState : HiveState :=
  { username := none, password := none, sessionToken := none, sessionExpiresAt := none }

/-! ### Email validation

`storeCredentials` validates the username against
`/^[^\s@]+@[^\s@]+\.[^\s@]+$/`.  The regex matches exactly when the string
splits at a unique `@` into a non-empty whitespace-free local part and a
domain that is whitespace-free and contains a dot that is neither its first
nor its last character (the `[^\s@]+` segments on either side of the literal
dot may themselves contain further dots). -/

/-- Split a character list at every occurrence of `sep`. -/
def splitOnChar (sep : Char) : List Char → List (List Char)
  | [] => [[]]
  | c :: rest =>
      let r := splitOnChar sep rest
      if c = sep then [] :: r
      else
        match r with
        | [] => [[c]]
        | h :: t => (c :: h) :: t

/-- A character admitted by the `[^\s@]` class (the `@` itself is excluded by
the split). -/
def emailCharOk (c : Char) : Bool :=
  !c.isWhitespace

/-- The domain part matches `[^\s@]+\.[^\s@]+`: some dot with a non-empty
segment on each side. -/
def hasInteriorDot (cs : List Char) : Bool :=
  (List.range cs.length).any fun i =>
    decide (0 < i) && decide (i + 1 < cs.length) && (cs.getD i ' ' == '.')

/-- The email regex of `storeCredentials`. -/
def emailLike (s : String) : Bool :=
  match splitOnChar '@' s.toList with
  | [localPart, domain] =>
      !localPart.isEmpty && localPart.all emailCharOk &&
        domain.all emailCharOk && hasInteriorDot domain
  | _ => false

theorem splitOnChar_of_not_mem (sep : Char) (cs : List Char) (h : sep ∉ cs) :
    splitOnChar sep cs = [cs] := by
  induction cs with
  | nil => rfl
  | cons c rest ih =>
      have hc : ¬(c = sep) := fun hce => h (hce ▸ List.mem_cons_self c rest)
      have hrest : sep ∉ rest := fun hm => h (List.mem_cons_of_mem _ hm)
      simp [splitOnChar, hc, ih hrest]

/-- A username without an `@` cannot match the email regex. -/
theorem emailLike_eq_false_of_no_at (s : String) (h : '@' ∉ s.toList) :
    emailLike s = false := by
  unfold emailLike
  rw [splitOnChar_of_not_mem '@' s.toList h]

/-! ### Operations -/

/-- `storeCredentials(username, password)`: validation errors are thrown
before any assignment, so the returned manager is unchanged on the error
branches; on success both fields are replaced, the cached session token is
invalidated, and `_saveCredentials` rewrites the file. -/
def storeCredentials (encryptPw : String → EncryptedRecord) (m : Manager)
    (username password : String) : Manager × Except String Unit :=
  if username = "" || jsTrim username = "" then
    (m, .error "Invalid username: username is required")
  else if password = "" || jsTrim password = "" then
    (m, .error "Invalid password: password is required")
  else if !emailLike username then
    (m, .error "Invalid username: must be a valid email address")
  else
    let mem : HiveState :=
      { username := some username, password := some password,
        sessionToken := none, sessionExpiresAt := none }
    ({ mem := mem, disk := some (buildFileData encryptPw mem) }, .ok ())

/-- The `{username, password}` object returned by `getCredentials`. -/
structure HiveCreds where
  username : String
  password : String
deriving DecidableEq, Repr

/-- `getCredentials()`: `null` unless both fields are truthy. -/
def getCredentials (s : HiveState) : Option HiveCreds :=
  match s.username, s.password with
  | some u, some p => if u = "" || p = "" then none else some { username := u, password := p }
  | _, _ => none

/-- `hasCredentials()`: `!!(this.username && this.password)`. -/
def hasCredentials (s : HiveState) : Bool :=
  truthyS s.username && truthyS s.password

/-- `clearCredentials()`: null every field and rewrite the file. -/
def clearCredentials (encryptPw : String → EncryptedRecord) (_m : Manager) : Manager :=
  { mem := initialState, disk := some (buildFileData encryptPw initialState) }

/-- `setSessionToken(token, expiresAt)`. -/
def setSessionToken (encryptPw : String → EncryptedRecord) (m : Manager)
    (token : String) (expiresAt : Nat) : Manager :=
  let mem : HiveState :=
    { m.mem with sessionToken := some token, sessionExpiresAt := some expiresAt }
  { mem := mem, disk := some (buildFileData encryptPw mem) }

/-- `getSessionToken()` at time `now`: `null` when either field is falsy;
when `now >= sessionExpiresAt`, clear both fields, rewrite the file, and
return `null`; otherwise return the token without mutation. -/
def getSessionToken (encryptPw : String → EncryptedRecord) (now : Nat) (m : Manager) :
    Option String × Manager :=
  if !truthyS m.mem.sessionToken || !truthyN m.mem.sessionExpiresAt then
    (none, m)
  else if m.mem.sessionExpiresAt.getD 0 ≤ now then
    let mem : HiveState := { m.mem with sessionToken := none, sessionExpiresAt := none }
    (none, { mem := mem, disk := some (buildFileData encryptPw mem) })
  else
    (m.mem.sessionToken, m)

/-- `clearSessionToken()`. -/
def clearSessionToken (encryptPw : String → EncryptedRecord) (m : Manager) : Manager :=
  let mem : HiveState := { m.mem with sessionToken := none, sessionExpiresAt := none }
  { mem := mem, disk := some (buildFileData encryptPw mem) }

/-! ### Loading (`_loadCredentials`)

`JSON.parse` and the decryption pipeline (`getEncryptionKey()` followed by
`decrypt(...)`, both inside the inner `try`) are injected: `parseJson`
returns `none` when `JSON.parse` throws, `decryptPw encrypted iv authTag`
returns `none` when key resolution or auth-tag verification throws. -/

/-- The parsed shape of the credentials file as `_loadCredentials` reads it. -/
structure CredData where
  username : Option String
  encryptedPassword : Option String
  iv : Option String
  authTag : Option String
  sessionToken : Option String
  sessionExpiresAt : Option Nat
deriving Repr

/-- `if (data.username) this.username = data.username`. -/
def loadUsername (data : CredData) : HiveState :=
  if truthyS data.username then { initialState with username := data.username }
  else initialState

/-- `if (data.encryptedPassword && data.iv && data.authTag) try { decrypt }
catch { this.username = null; this.password = null }`. -/
def loadPassword (decryptPw : String → String → String → Option String)
    (data : CredData) (s : HiveState) : HiveState :=
  match data.encryptedPassword, data.iv, data.authTag with
  | some ep, some iv, some tag =>
      if ep ≠ "" && iv ≠ "" && tag ≠ "" then
        match decryptPw ep iv tag with
        | some pw => { s with password := some pw }
        | none => { s with username := none, password := none }
      else s
  | _, _, _ => s

/-- `if (data.sessionToken && data.sessionExpiresAt && Date.now() <
data.sessionExpiresAt)`. -/
def loadSession (now : Nat) (data : CredData) (s : HiveState) : HiveState :=
  match data.sessionToken, data.sessionExpiresAt with
  | some t, some e =>
      if t ≠ "" && e ≠ 0 && now < e then
        { s with sessionToken := some t, sessionExpiresAt := some e }
      else s
  | _, _ => s

/-- `_loadCredentials()` at time `now` with file contents `file` (`none` when
`existsSync` is false). -/
def loadCredentials (parseJson : String → Option CredData)
    (decryptPw : String → String → String → Option String)
    (now : Nat) (file : Option String) : HiveState :=
  match file with
  | none => initialState
  | some contents =>
      if jsTrim contents = "" then initialState
      else
        match parseJson contents with
        | none => initialState
        | some data => loadSession now data (loadPassword decryptPw data (loadUsername data))

/-! ## Hive auth service (`HiveAuthService`, `backend/services/hiveAuthService.js`)

The service is stateless apart from its calls into the credentials manager;
we make those calls explicit: the device-credential bundle read at the top of
`initiateAuth` (`hiveCredentialsManager.getDeviceCredentials?.()`) is an
input, and the writes (`setDeviceCredentials`, `setSessionToken` via
`storeTokens`) are returned as an `Effects` record.  The simulated Cognito
responses embed `Date.now()`, passed as `now`. -/

/-- The 2FA-bypass bundle created by `verify2fa`. -/
structure DeviceCredentials where
  deviceKey : String
  deviceGroupKey : String
  devicePassword : String
deriving DecidableEq, Repr

/-- A result object of the auth service: all fields optional, mirroring the
ad-hoc JavaScript result shapes (`{requires2fa, session}`, `{accessToken,
...}`, `{error}`). -/
structure AuthOutcome where
  success : Option Bool
  requires2fa : Option Bool
  session : Option String
  accessToken : Option String
  refreshToken : Option String
  idToken : Option String
  expiresIn : Option Nat
  deviceKey : Option String
  deviceGroupKey : Option String
  devicePassword : Option String
  error : Option String
deriving DecidableEq, Repr

/-- The empty result object. -/
def emptyOutcome : AuthOutcome :=
  { success := none, requires2fa := none, session := none, accessToken := none,
    refreshToken := none, idToken := none, expiresIn := none, deviceKey := none,
    deviceGroupKey := none, devicePassword := none, error := none }

/-- Writes the service performs on the credentials manager during a call. -/
structure Effects where
  storedSessionToken : Option (String × Nat)
  storedDeviceCreds : Option DeviceCredentials
deriving DecidableEq, Repr

/-- No writes. -/
def noEffects : Effects :=
  { storedSessionToken := none, storedDeviceCreds := none }

/-- Modelled from the spec: `HIVE_DEMO_CREDENTIALS` is exported by
`hiveCredentialsManager.js`, whose deployed revision is not in the tree; the
values are fixed by the service test double
(`backend/test/services/hiveAuthService.test.js`) and spec scenario 5. -/
structure DemoCredentials where
  username : String
  password : String
  code : String
deriving DecidableEq, Repr

/-- Modelled from the spec: demo account `demo@hive.com` / `demo` with 2FA
code `123456`. -/
def HIVE_DEMO_CREDENTIALS : DemoCredentials :=
  { username := "demo@hive.com", password := "demo", code := "123456" }

/-- `_handleDemoAuth(username, password)`. -/
def handleDemoAuth (username password : String) : AuthOutcome :=
  if username = HIVE_DEMO_CREDENTIALS.username && password = HIVE_DEMO_CREDENTIALS.password then
    { emptyOutcome with requires2fa := some true, session := some "demo-2fa-session" }
  else
    { emptyOutcome with error := some "Invalid demo credentials" }

/-- `_handleDemo2fa(code)`. -/
def handleDemo2fa (code : String) : AuthOutcome :=
  if code = HIVE_DEMO_CREDENTIALS.code then
    { emptyOutcome with
      success := some true,
      accessToken := some "demo-access-token",
      refreshToken := some "demo-refresh-token",
      idToken := some "demo-id-token" }
  else
    { emptyOutcome with error := some "Invalid verification code" }

/-- `storeTokens(tokens)`: a no-op unless `tokens.accessToken` is truthy;
otherwise `setSessionToken(accessToken, Date.now() + (expiresIn || 3600) *
1000)`. -/
def storeTokens (now : Nat) (tokens : AuthOutcome) : Option (String × Nat) :=
  match tokens.accessToken with
  | none => none
  | some a =>
      if a = "" then none
      else some (a, now + (if truthyN tokens.expiresIn then tokens.expiresIn.getD 0 else 3600) * 1000)

/-- The device-key check at the top of `deviceLogin` passing: present and not
one of the rejected markers. -/
def validDeviceCreds (dc : DeviceCredentials) : Bool :=
  !(dc.deviceKey = "" || dc.deviceKey = "invalid-key" || dc.deviceKey = "stale-device-key")

/-- `deviceLogin(username, password, deviceCreds)`: rejected credentials
signal `{error, requires2fa: true}`; accepted credentials yield simulated
tokens, which are stored via `storeTokens`.  The username and password are
not consulted by the simulated flow. -/
def deviceLogin (now : Nat) (_username _password : String)
    (deviceCreds : Option DeviceCredentials) : AuthOutcome × Effects :=
  match deviceCreds with
  | none =>
      ({ emptyOutcome with error := some "Device not recognized", requires2fa := some true },
       noEffects)
  | some dc =>
      if !validDeviceCreds dc then
        ({ emptyOutcome with error := some "Device not recognized", requires2fa := some true },
         noEffects)
      else
        let tokens : AuthOutcome :=
          { emptyOutcome with
            accessToken := some ("access-device-" ++ toString now),
            refreshToken := some ("refresh-device-" ++ toString now),
            idToken := some ("id-device-" ++ toString now) }
        (tokens, { noEffects with storedSessionToken := storeTokens now tokens })

/-- `initiateAuth(username, password, demoMode)` with the credentials
manager's device-credential lookup passed in as `deviceCreds`: try the device
fast path when a bundle is on file, keep its result only when it produced an
access token and no error, and otherwise fall through to the standard
(simulated SRP) path, which always answers with an SMS-MFA challenge. -/
def initiateAuth (now : Nat) (deviceCreds : Option DeviceCredentials)
    (username password : String) (demoMode : Bool) : AuthOutcome × Effects :=
  if demoMode then (handleDemoAuth username password, noEffects)
  else
    let standard : AuthOutcome :=
      { emptyOutcome with
        requires2fa := some true,
        session := some ("session-" ++ toString now) }
    match deviceCreds with
    | some dc =>
        let r := deviceLogin now username password (some dc)
        if truthyS r.1.accessToken && !truthyS r.1.error then r
        else (standard, r.2)
    | none => (standard, noEffects)

/-- `verify2fa(code, session, username, demoMode)`.  `hasSetDeviceCredentials`
is the truthiness of `hiveCredentialsManager.setDeviceCredentials` guarding
the device-registration write. -/
def verify2fa (now : Nat) (hasSetDeviceCredentials : Bool)
    (code session _username : String) (demoMode : Bool) : AuthOutcome × Effects :=
  if demoMode then (handleDemo2fa code, noEffects)
  else
    if session = "" || session = "expired-session-token" then
      ({ emptyOutcome with error := some "Session expired. Please login again." }, noEffects)
    else if code = "000000" || code.length ≠ 6 then
      ({ emptyOutcome with error := some "Invalid verification code" }, noEffects)
    else
      let tokens : AuthOutcome :=
        { emptyOutcome with
          success := some true,
          accessToken := some ("access-" ++ toString now),
          refreshToken := some ("refresh-" ++ toString now),
          idToken := some ("id-" ++ toString now) }
      let dc : DeviceCredentials :=
        { deviceKey := "device-" ++ toString now, deviceGroupKey := "group-key",
          devicePassword := "device-pass-" ++ toString now }
      ({ tokens with
         deviceKey := some dc.deviceKey,
         deviceGroupKey := some dc.deviceGroupKey,
         devicePassword := some dc.devicePassword },
       { storedSessionToken := storeTokens now tokens,
         storedDeviceCreds := if hasSetDeviceCredentials then some dc else none })

/-! ### Deployed manager members

`hiveAuthService.js` accesses the device-credential operations defensively
(`hiveCredentialsManager.getDeviceCredentials?.()`,
`if (hiveCredentialsManager.setDeviceCredentials)`,
`if (hiveCredentialsManager.clearDeviceCredentials)`).  The
`HiveCredentialsManager` class body declares no such methods, so each property
lookup yields `undefined`. -/

/-- The method names declared by the `HiveCredentialsManager` class body. -/
def hiveCredentialsManagerMethods : List String :=
  ["constructor", "storeCredentials", "getCredentials", "hasCredentials",
   "clearCredentials", "setSessionToken", "getSessionToken", "clearSessionToken",
   "_saveCredentials", "_loadCredentials"]

/-- Property lookup `hiveCredentialsManager.getDeviceCredentials`: not
declared by the class, hence `undefined`. -/
def lookupGetDeviceCredentials : Option (Unit → Option DeviceCredentials) := none

/-- Property lookup `hiveCredentialsManager.setDeviceCredentials`: not
declared by the class, hence `undefined`. -/
def lookupSetDeviceCredentials : Option (DeviceCredentials → Manager → Manager) := none

/-- Property lookup `hiveCredentialsManager.clearDeviceCredentials`: not
declared by the class, hence `undefined`. -/
def lookupClearDeviceCredentials : Option (Manager → Manager) := none

/-- The value of `hiveCredentialsManager.getDeviceCredentials?.()` as
evaluated at the top of `initiateAuth` against the deployed manager. -/
def deployedDeviceCredentials : Option DeviceCredentials :=
  match lookupGetDeviceCredentials with
  | none => none
  | some f => f ()

/-! ## Credential-extraction middleware

Modelled from the spec: `middleware/auth.js` and `services/sessionManager.js`
are not in the tree (only `test/middleware/auth.test.js` is), so
`extractCredentials` is modelled from §4.4 of the specification, with the
session manager's `getSession` and `hasBridgeCredentials` injected.  Error
kinds and status codes follow `backend/utils/errors.js`
(`InvalidSessionError` → 401, `MissingCredentialsError` → 400). -/

/-- The `authMethod` discriminator placed on the request context. -/
inductive AuthMethod where
  | session
  | headers
  | query
deriving DecidableEq, Repr

/-- The normalized `req.hue` context. -/
structure HueContext where
  bridgeIp : String
  username : String
  authMethod : AuthMethod
deriving DecidableEq, Repr

/-- The parts of an inbound request the middleware consults. -/
structure Request where
  authorization : Option String
  xBridgeIp : Option String
  xHueUsername : Option String
  queryBridgeIp : Option String
  queryUsername : Option String
deriving Repr

/-- The middleware's typed failures. -/
inductive AuthFailure where
  | invalidSession
  | missingCredentials (param : String)
deriving DecidableEq, Repr

/-- HTTP status carried by each failure (`errors.js`). -/
def AuthFailure.statusCode : AuthFailure → Nat
  | .invalidSession => 401
  | .missingCredentials _ => 400

/-- The bearer token of the `Authorization` header, when one is present:
the header value starts with `"Bearer "` and the token is the remainder. -/
def bearerToken (req : Request) : Option String :=
  req.authorization.bind fun a =>
    if a.toList.take 7 = "Bearer ".toList then some (String.mk (a.toList.drop 7))
    else none

/-- Modelled from the spec: `extractCredentials` (§4.4).  Channels in strict
priority order — (1) bearer session token, a hard `InvalidSession` failure
when present but unresolvable; (2) explicit headers; (3) query parameters;
else `MissingCredentials` naming the absent parameter.  The second component
is the `storeBridgeCredentials` side-effect call made on success when the
bridge is not yet cached. -/
def extractCredentials (getSession : String → Option (String × String))
    (hasBridgeCredentials : String → Bool) (req : Request) :
    Except AuthFailure HueContext × Option (String × String) :=
  let stored := fun (ip u : String) =>
    if hasBridgeCredentials ip then none else some (ip, u)
  match bearerToken req with
  | some tok =>
      match getSession tok with
      | some (ip, u) =>
          (.ok { bridgeIp := ip, username := u, authMethod := .session }, stored ip u)
      | none => (.error .invalidSession, none)
  | none =>
      match req.xBridgeIp, req.xHueUsername with
      | some ip, some u =>
          (.ok { bridgeIp := ip, username := u, authMethod := .headers }, stored ip u)
      | _, _ =>
          match req.queryBridgeIp, req.queryUsername with
          | some ip, some u =>
              (.ok { bridgeIp := ip, username := u, authMethod := .query }, stored ip u)
          | _, _ =>
              let missing :=
                if req.xBridgeIp = none && req.queryBridgeIp = none then "bridgeIp"
                else "username"
              (.error (.missingCredentials missing), none)

/-! ## Shared helper lemmas and witness fixtures -/

theorem string_append_ne_empty (s t : String) (h : 0 < s.length) : s ++ t ≠ "" := by
  intro he
  have hlen := congrArg String.length he
  rw [String.length_append] at hlen
  simp at hlen
  omega

/-- A concrete stand-in for the password-encryption pipeline used by witness
instantiations. -/
def wEnc : String → EncryptedRecord :=
  fun p => { encrypted := p, iv := "d2l0bmVzcy1pdg==", authTag := "d2l0bmVzcy10YWc=" }

/-- A manager holding previously stored credentials, for witnesses. -/
def wManager : Manager :=
  { mem := { username := some "user@example.com", password := some "s3cret!",
             sessionToken := none, sessionExpiresAt := none },
    disk := none }

/-- A manager in its freshly constructed state, for witnesses. -/
def emptyManager : Manager := { mem := initialState, disk := none }

/-- A 64-character lowercase-hex key for witnesses. -/
def wKey64 : String :=
  "0123456789abcdef0123456789abcdef0123456789abcdef0123456789abcdef"

/-- A concrete keystream function for witnesses. -/
def wKS : String → Nat → Nat → Nat := fun _ iv i => iv + i

/-- A concrete tag function for witnesses. -/
def wGH : String → Nat → List Nat → Nat := fun _ iv ct => iv + ct.length

/-! ## C5 — encrypt/decrypt round trip -/

/-- C5: for every plaintext and valid 64-character hex key, `decrypt` undoes
`encrypt` under the same key; and two `encrypt` calls on the same plaintext
and key with the distinct fresh IVs drawn per call produce different
`{ciphertext, iv, authTag}` outputs, both of which decrypt back to the
plaintext.  Quantified over every keystream and tag function of the
underlying cipher. -/
theorem encrypt_decrypt_roundtrip
    (ks : String → Nat → Nat → Nat) (gh : String → Nat → List Nat → Nat)
    (p : List Nat) (key : String) (iv1 iv2 : Nat)
    (_hkey : isValidKey key = true) (hiv : iv1 ≠ iv2) :
    decrypt ks gh (encrypt ks gh p key iv1) key = some p ∧
    decrypt ks gh (encrypt ks gh p key iv2) key = some p ∧
    encrypt ks gh p key iv1 ≠ encrypt ks gh p key iv2 := by
  refine ⟨?_, ?_, ?_⟩
  · simp [encrypt, decrypt, xorKeystream_involutive]
  · simp [encrypt, decrypt, xorKeystream_involutive]
  · intro h
    exact hiv (congrArg EncryptedPayload.iv h)

/-- C5 witness at a concrete plaintext, key, and IV pair. -/
theorem encrypt_decrypt_roundtrip_witness :
    isValidKey wKey64 = true ∧ (0 : Nat) ≠ 1 ∧
    decrypt wKS wGH (encrypt wKS wGH [104, 105] wKey64 0) wKey64 = some [104, 105] ∧
    decrypt wKS wGH (encrypt wKS wGH [104, 105] wKey64 1) wKey64 = some [104, 105] ∧
    encrypt wKS wGH [104, 105] wKey64 0 ≠ encrypt wKS wGH [104, 105] wKey64 1 := by
  have h := encrypt_decrypt_roundtrip wKS wGH [104, 105] wKey64 0 1 (by decide) (by decide)
  exact ⟨by decide, by decide, h.1, h.2.1, h.2.2⟩

/-! ## C6 — key resolution failure semantics -/

/-- A fresh 64-character key as `generateKey()` would produce, for the
counterexample. -/
def freshKey64 : String :=
  "aaaaaaaaaaaaaaaaaaaaaaaaaaaaaaaaaaaaaaaaaaaaaaaaaaaaaaaaaaaaaaaa"

/-- C6 counterexample: a key-file content that is not 64 lowercase hex
characters does NOT fail resolution — the validation error is caught and a
freshly generated key is persisted and returned (`.ok` with the
generated-and-saved flag), contradicting the claim that every malformed
resolved key is a fatal configuration error. -/
theorem getEncryptionKey_malformed_file_counterexample :
    isValidKey "not-a-valid-key" = false ∧
    getEncryptionKey none none (some "not-a-valid-key") freshKey64 =
      .ok (freshKey64, true) := by
  exact ⟨by decide, rfl⟩

/-- C6 amended: a malformed key from the environment variable fails key
resolution with the validation error (fatal, at resolution time); a malformed
key file is caught, and resolution instead succeeds with a freshly generated
key that is persisted to the key file. -/
theorem getEncryptionKey_malformed_semantics :
    (∀ (env : String) (fileKey : Option String) (fresh : String) (e : KeyError),
      env ≠ "" → validateKey env = .error e →
      getEncryptionKey none (some env) fileKey fresh = .error e) ∧
    (∀ (f fresh : String) (e : KeyError), validateKey (jsTrim f) = .error e →
      getEncryptionKey none none (some f) fresh = .ok (fresh, true)) := by
  constructor
  · intro env fileKey fresh e henv hval
    simp [getEncryptionKey, truthyS, henv, hval]
  · intro f fresh e hval
    simp [getEncryptionKey, truthyS, hval]

/-- C6 witness: both halves of the amended statement at the malformed key
`"BADKEY"`. -/
theorem getEncryptionKey_malformed_semantics_witness :
    getEncryptionKey none (some "BADKEY") none freshKey64 = .error .invalidLength ∧
    getEncryptionKey none none (some "BADKEY") freshKey64 = .ok (freshKey64, true) :=
  ⟨getEncryptionKey_malformed_semantics.1 "BADKEY" none freshKey64 .invalidLength
      (by decide) rfl,
   getEncryptionKey_malformed_semantics.2 "BADKEY" freshKey64 .invalidLength rfl⟩

/-! ## C7 — `storeCredentials` validation atomicity -/

/-- C7: calling `storeCredentials` with a username lacking an `@` (or
otherwise failing the email regex) or with an empty(-after-trim) password
throws a validation error and leaves the manager — in-memory fields and
persisted file alike — unchanged. -/
theorem storeCredentials_rejects_and_preserves
    (encryptPw : String → EncryptedRecord) (m : Manager) (u p : String)
    (h : '@' ∉ u.toList ∨ emailLike u = false ∨ jsTrim p = "") :
    (storeCredentials encryptPw m u p).1 = m ∧
    ∃ e, (storeCredentials encryptPw m u p).2 = Except.error e := by
  have hbad : emailLike u = false ∨ jsTrim p = "" := by
    rcases h with h | h | h
    · exact Or.inl (emailLike_eq_false_of_no_at u h)
    · exact Or.inl h
    · exact Or.inr h
  unfold storeCredentials
  by_cases h1 : (u = "" || jsTrim u = "") = true
  · simp [h1]
  · by_cases h2 : (p = "" || jsTrim p = "") = true
    · simp [h1, h2]
    · have h3 : emailLike u = false := by
        rcases hbad with hb | hb
        · exact hb
        · exact absurd (by simp [hb]) h2
      simp [h1, h2, h3]

/-- C7 witness: spec scenario 4 — `storeCredentials("not-an-email", "x")`
rejects and the previously stored credentials survive. -/
theorem storeCredentials_rejects_and_preserves_witness :
    (storeCredentials wEnc wManager "not-an-email" "x").1 = wManager ∧
    ∃ e, (storeCredentials wEnc wManager "not-an-email" "x").2 = Except.error e :=
  storeCredentials_rejects_and_preserves wEnc wManager "not-an-email" "x"
    (Or.inl (by decide))

/-! ## C8 — load failures degrade to "no credentials" -/

theorem getCredentials_of_username_none (s : HiveState) (h : s.username = none) :
    getCredentials s = none := by
  unfold getCredentials
  rw [h]

theorem hasCredentials_of_username_none (s : HiveState) (h : s.username = none) :
    hasCredentials s = false := by
  simp [hasCredentials, h, truthyS]

theorem loadSession_username (now : Nat) (data : CredData) (s : HiveState) :
    (loadSession now data s).username = s.username := by
  unfold loadSession
  split
  · split <;> rfl
  · rfl

theorem loadSession_password (now : Nat) (data : CredData) (s : HiveState) :
    (loadSession now data s).password = s.password := by
  unfold loadSession
  split
  · split <;> rfl
  · rfl

theorem loadPassword_decrypt_failure
    (decryptPw : String → String → String → Option String) (data : CredData)
    (s : HiveState) (ep iv tag : String)
    (hep : data.encryptedPassword = some ep) (hiv : data.iv = some iv)
    (htag : data.authTag = some tag)
    (hep' : ep ≠ "") (hiv' : iv ≠ "") (htag' : tag ≠ "")
    (hdec : decryptPw ep iv tag = none) :
    (loadPassword decryptPw data s).username = none ∧
    (loadPassword decryptPw data s).password = none := by
  unfold loadPassword
  rw [hep, hiv, htag]
  simp [hep', hiv', htag', hdec]

/-- C8: after `_loadCredentials` runs against a missing file, an empty file,
unparseable JSON, or a file whose password fails to decrypt (tampering or
wrong key), the store reports no credentials: `getCredentials()` is `null`
and `hasCredentials()` is `false` — and the load is a total function, not a
crash. -/
theorem loadCredentials_fails_closed
    (parseJson : String → Option CredData)
    (decryptPw : String → String → String → Option String) (now : Nat) :
    (getCredentials (loadCredentials parseJson decryptPw now none) = none ∧
      hasCredentials (loadCredentials parseJson decryptPw now none) = false) ∧
    (∀ c, jsTrim c = "" →
      getCredentials (loadCredentials parseJson decryptPw now (some c)) = none ∧
      hasCredentials (loadCredentials parseJson decryptPw now (some c)) = false) ∧
    (∀ c, parseJson c = none →
      getCredentials (loadCredentials parseJson decryptPw now (some c)) = none ∧
      hasCredentials (loadCredentials parseJson decryptPw now (some c)) = false) ∧
    (∀ c d ep iv tag, parseJson c = some d →
      d.encryptedPassword = some ep → d.iv = some iv → d.authTag = some tag →
      ep ≠ "" → iv ≠ "" → tag ≠ "" → decryptPw ep iv tag = none →
      getCredentials (loadCredentials parseJson decryptPw now (some c)) = none ∧
      hasCredentials (loadCredentials parseJson decryptPw now (some c)) = false) := by
  refine ⟨⟨rfl, rfl⟩, ?_, ?_, ?_⟩
  · intro c hc
    simp [loadCredentials, hc, getCredentials, hasCredentials, initialState, truthyS]
  · intro c hc
    by_cases htrim : jsTrim c = ""
    · simp [loadCredentials, htrim, getCredentials, hasCredentials, initialState, truthyS]
    · simp [loadCredentials, htrim, hc, getCredentials, hasCredentials, initialState, truthyS]
  · intro c d ep iv tag hparse hep hiv htag hep' hiv' htag' hdec
    by_cases htrim : jsTrim c = ""
    · simp [loadCredentials, htrim, getCredentials, hasCredentials, initialState, truthyS]
    · have hu : (loadCredentials parseJson decryptPw now (some c)).username = none := by
        simp only [loadCredentials, htrim, hparse, if_false]
        rw [loadSession_username]
        exact (loadPassword_decrypt_failure decryptPw d (loadUsername d) ep iv tag
          hep hiv htag hep' hiv' htag' hdec).1
      exact ⟨getCredentials_of_username_none _ hu, hasCredentials_of_username_none _ hu⟩

/-- Parsed file contents for the C8 witness: a record whose password fields
are present but fail decryption. -/
def wCredData : CredData :=
  { username := some "user@example.com", encryptedPassword := some "Y2lwaGVy",
    iv := some "aXY=", authTag := some "dGFn", sessionToken := none,
    sessionExpiresAt := none }

/-- A concrete `JSON.parse` stand-in for the C8 witness: only the string
`"tampered"` parses. -/
def wParse : String → Option CredData :=
  fun c => if c = "tampered" then some wCredData else none

/-- A decryption pipeline that always fails (auth-tag mismatch), for the C8
witness. -/
def wDecFail : String → String → String → Option String := fun _ _ _ => none

/-- C8 witness: concrete parse and decrypt functions exercising all four
failure shapes. -/
theorem loadCredentials_fails_closed_witness :
    (getCredentials (loadCredentials wParse wDecFail 0 none) = none ∧
      hasCredentials (loadCredentials wParse wDecFail 0 none) = false) ∧
    (getCredentials (loadCredentials wParse wDecFail 0 (some "  ")) = none ∧
      hasCredentials (loadCredentials wParse wDecFail 0 (some "  ")) = false) ∧
    (getCredentials (loadCredentials wParse wDecFail 0 (some "not json")) = none ∧
      hasCredentials (loadCredentials wParse wDecFail 0 (some "not json")) = false) ∧
    (getCredentials (loadCredentials wParse wDecFail 0 (some "tampered")) = none ∧
      hasCredentials (loadCredentials wParse wDecFail 0 (some "tampered")) = false) := by
  have h := loadCredentials_fails_closed wParse wDecFail 0
  exact ⟨h.1, h.2.1 "  " (by decide), h.2.2.1 "not json" rfl,
    h.2.2.2 "tampered" wCredData "Y2lwaGVy" "aXY=" "dGFn" rfl rfl rfl rfl
      (by decide) (by decide) (by decide) rfl⟩

/-! ## C9 — session-token cache expiry -/

/-- C9 counterexample: `setSessionToken("", 100)` stores the empty-string
token, yet `getSessionToken()` at time 0 — strictly before the expiry —
returns `null` rather than the stored token, because the getter treats the
falsy token as absent. -/
theorem getSessionToken_empty_token_counterexample :
    (0 : Nat) < 100 ∧
    (getSessionToken wEnc 0 (setSessionToken wEnc emptyManager "" 100)).1 = none :=
  ⟨by decide, rfl⟩

/-- C9 amended: for every NON-EMPTY token and POSITIVE expiry set by
`setSessionToken`, `getSessionToken` strictly before the expiry returns the
token; at or after the expiry it returns `null` and clears both stored
fields, so every subsequent call also returns `null`. -/
theorem setSessionToken_getSessionToken (encryptPw : String → EncryptedRecord)
    (m : Manager) (token : String) (expiresAt now : Nat)
    (htok : token ≠ "") (hexp : 0 < expiresAt) :
    (now < expiresAt →
      (getSessionToken encryptPw now (setSessionToken encryptPw m token expiresAt)).1 =
        some token) ∧
    (expiresAt ≤ now →
      (getSessionToken encryptPw now (setSessionToken encryptPw m token expiresAt)).1 = none ∧
      (getSessionToken encryptPw now
          (setSessionToken encryptPw m token expiresAt)).2.mem.sessionToken = none ∧
      (getSessionToken encryptPw now
          (setSessionToken encryptPw m token expiresAt)).2.mem.sessionExpiresAt = none ∧
      ∀ later, (getSessionToken encryptPw later
        (getSessionToken encryptPw now (setSessionToken encryptPw m token expiresAt)).2).1 =
          none) := by
  constructor
  · intro hlt
    simp [getSessionToken, setSessionToken, truthyS, truthyN, htok, hexp.ne',
      Nat.not_le.mpr hlt]
  · intro hge
    refine ⟨?_, ?_, ?_, ?_⟩
    · simp [getSessionToken, setSessionToken, truthyS, truthyN, htok, hexp.ne', hge]
    · simp [getSessionToken, setSessionToken, truthyS, truthyN, htok, hexp.ne', hge]
    · simp [getSessionToken, setSessionToken, truthyS, truthyN, htok, hexp.ne', hge]
    · intro later
      simp [getSessionToken, setSessionToken, truthyS, truthyN, htok, hexp.ne', hge]

/-- C9 witness: token `"tok"`, expiry 10 — read at 5 returns it; read at 10
returns `null` and a later read at 99 still returns `null`. -/
theorem setSessionToken_getSessionToken_witness :
    (getSessionToken wEnc 5 (setSessionToken wEnc emptyManager "tok" 10)).1 = some "tok" ∧
    (getSessionToken wEnc 10 (setSessionToken wEnc emptyManager "tok" 10)).1 = none ∧
    (getSessionToken wEnc 99
      (getSessionToken wEnc 10 (setSessionToken wEnc emptyManager "tok" 10)).2).1 = none := by
  have h5 := setSessionToken_getSessionToken wEnc emptyManager "tok" 10 5
    (by decide) (by decide)
  have h10 := setSessionToken_getSessionToken wEnc emptyManager "tok" 10 10
    (by decide) (by decide)
  exact ⟨h5.1 (by decide), (h10.2 (by decide)).1, (h10.2 (by decide)).2.2.2 99⟩

/-! ## C10 — store invariant -/

/-- C10: in every reachable and unreachable store state alike — in particular
after construction/load, `storeCredentials`, `clearCredentials`,
`setSessionToken`, `getSessionToken`, and `clearSessionToken`, all of which
produce values of this state type — `hasCredentials()` is `true` exactly when
`getCredentials()` is non-null, and a non-null `getCredentials()` result has
non-empty username and password. -/
theorem credentials_invariant (s : HiveState) :
    (hasCredentials s = true ↔ ∃ c, getCredentials s = some c) ∧
    (∀ c, getCredentials s = some c → c.username ≠ "" ∧ c.password ≠ "") := by
  rcases s with ⟨u, p, st, se⟩
  cases u with
  | none => simp [hasCredentials, getCredentials, truthyS]
  | some u0 =>
      cases p with
      | none => simp [hasCredentials, getCredentials, truthyS]
      | some p0 =>
          by_cases hu : u0 = "" <;> by_cases hp : p0 = "" <;>
            simp [hasCredentials, getCredentials, truthyS, hu, hp]

/-- C10 witness: the invariant applied to a concrete populated state. -/
theorem credentials_invariant_witness :
    hasCredentials wManager.mem = true ∧
    ("user@example.com" ≠ "" ∧ "s3cret!" ≠ "") :=
  ⟨(credentials_invariant wManager.mem).1.mpr
      ⟨{ username := "user@example.com", password := "s3cret!" }, rfl⟩,
   (credentials_invariant wManager.mem).2
      { username := "user@example.com", password := "s3cret!" } rfl⟩

/-! ## C2 — device-credential operations on the credential store -/

/-- C2 counterexample: the `HiveCredentialsManager` class declares none of
`setDeviceCredentials`, `getDeviceCredentials`, `clearDeviceCredentials`;
each property lookup on the deployed manager yields `undefined`. -/
theorem deviceCredentialOps_absent_counterexample :
    ¬("getDeviceCredentials" ∈ hiveCredentialsManagerMethods ∧
      "setDeviceCredentials" ∈ hiveCredentialsManagerMethods ∧
      "clearDeviceCredentials" ∈ hiveCredentialsManagerMethods) ∧
    lookupGetDeviceCredentials.isSome = false ∧
    lookupSetDeviceCredentials.isSome = false ∧
    lookupClearDeviceCredentials.isSome = false := by
  exact ⟨by decide, rfl, rfl, rfl⟩

/-- C2 amended: the credential store provides no device-credential
operations; the auth service reads them defensively, so the device bundle
read at the top of `initiateAuth` is always absent against the deployed
manager, and every non-demo `initiateAuth` therefore takes the standard
2FA-challenge path and stores nothing. -/
theorem deviceCredentials_never_on_file :
    deployedDeviceCredentials = none ∧
    ∀ (now : Nat) (username password : String),
      (initiateAuth now deployedDeviceCredentials username password false).1.requires2fa =
        some true ∧
      (initiateAuth now deployedDeviceCredentials username password false).1.accessToken =
        none ∧
      (initiateAuth now deployedDeviceCredentials username password false).2 = noEffects :=
  ⟨rfl, fun _ _ _ => ⟨rfl, rfl, rfl⟩⟩

/-! ## C3 — `initiateAuth` device fast path and fallback -/

/-- C3: `initiateAuth` (non-demo) with a valid device-credential bundle on
file returns provider tokens directly — no `requires2fa` flag, no error —
for any username/password; with an invalid or stale bundle on file it falls
back to the standard path and returns `{requires2fa: true}` with a challenge
session rather than a hard failure. -/
theorem initiateAuth_device_fastpath (now : Nat) (username password : String)
    (dc : DeviceCredentials) :
    (validDeviceCreds dc = true →
      ((initiateAuth now (some dc) username password false).1.accessToken =
          some ("access-device-" ++ toString now) ∧
        (initiateAuth now (some dc) username password false).1.refreshToken.isSome = true ∧
        (initiateAuth now (some dc) username password false).1.idToken.isSome = true ∧
        (initiateAuth now (some dc) username password false).1.requires2fa = none ∧
        (initiateAuth now (some dc) username password false).1.error = none)) ∧
    (validDeviceCreds dc = false →
      ((initiateAuth now (some dc) username password false).1.requires2fa = some true ∧
        (initiateAuth now (some dc) username password false).1.session =
          some ("session-" ++ toString now) ∧
        (initiateAuth now (some dc) username password false).1.accessToken = none ∧
        (initiateAuth now (some dc) username password false).1.error = none)) := by
  have hne : ("access-device-" ++ toString now) ≠ "" :=
    string_append_ne_empty _ _ (by decide)
  constructor
  · intro hv
    simp [initiateAuth, deviceLogin, emptyOutcome, truthyS, hv, hne]
  · intro hv
    simp [initiateAuth, deviceLogin, emptyOutcome, truthyS, hv]

/-- An accepted device bundle (the service test fixture), for the C3
witness. -/
def wGoodDevice : DeviceCredentials :=
  { deviceKey := "device-key-123", deviceGroupKey := "device-group-key",
    devicePassword := "device-password" }

/-- A stale device bundle the provider rejects, for the C3 witness. -/
def wStaleDevice : DeviceCredentials :=
  { deviceKey := "stale-device-key", deviceGroupKey := "stale-group",
    devicePassword := "stale-pass" }

/-- C3 witness: the fast path with the test-fixture bundle `device-key-123`,
and the fallback with the stale bundle `stale-device-key`. -/
theorem initiateAuth_device_fastpath_witness :
    ((initiateAuth 7 (some wGoodDevice) "user@hive.com" "password" false).1.accessToken =
        some ("access-device-" ++ toString 7) ∧
      (initiateAuth 7 (some wGoodDevice) "user@hive.com" "password" false).1.requires2fa =
        none) ∧
    ((initiateAuth 7 (some wStaleDevice) "user@hive.com" "password" false).1.requires2fa =
        some true ∧
      (initiateAuth 7 (some wStaleDevice) "user@hive.com" "password" false).1.session =
        some ("session-" ++ toString 7)) := by
  have hg := (initiateAuth_device_fastpath 7 "user@hive.com" "password" wGoodDevice).1
    (by decide)
  have hs := (initiateAuth_device_fastpath 7 "user@hive.com" "password" wStaleDevice).2
    (by decide)
  exact ⟨⟨hg.1, hg.2.2.2.1⟩, ⟨hs.1, hs.2.1⟩⟩

/-! ## C4 — `verify2fa` error handling -/

/-- C4 counterexample: `"abcdef"` is six characters but not six digits, yet
`verify2fa` against a live challenge session accepts it — the code validates
only `code.length !== 6` (plus the sentinel `"000000"`), not digit-ness — so
"a code that is not exactly 6 digits yields `{error}`" is false. -/
theorem verify2fa_nondigit_code_counterexample :
    "abcdef".length = 6 ∧ "abcdef".toList.all Char.isDigit = false ∧
    (verify2fa 3 true "abcdef" "live-session" "user@hive.com" false).1.error = none ∧
    (verify2fa 3 true "abcdef" "live-session" "user@hive.com" false).1.success = some true := by
  exact ⟨by decide, by decide, rfl, rfl⟩

/-- C4 amended: for every live (non-empty, non-expired) challenge session, a
code that is not exactly 6 CHARACTERS, or that the simulated provider rejects
(the sentinel `"000000"`), yields the result value
`{error: "Invalid verification code"}` without throwing, with no tokens, no
success flag, and no writes to the credentials manager — and the same
challenge session still accepts a subsequent well-formed code, so a retry
remains possible. -/
theorem verify2fa_invalid_code_keeps_session (now : Nat) (hasSet : Bool)
    (code session username : String)
    (hs1 : session ≠ "") (hs2 : session ≠ "expired-session-token")
    (hbad : code = "000000" ∨ code.length ≠ 6) :
    (verify2fa now hasSet code session username false).1.error =
      some "Invalid verification code" ∧
    (verify2fa now hasSet code session username false).1.accessToken = none ∧
    (verify2fa now hasSet code session username false).1.success = none ∧
    (verify2fa now hasSet code session username false).2 = noEffects ∧
    ∀ (now2 : Nat) (code2 : String), code2 ≠ "000000" → code2.length = 6 →
      (verify2fa now2 hasSet code2 session username false).1.success = some true := by
  refine ⟨?_, ?_, ?_, ?_, ?_⟩
  · simp [verify2fa, hs1, hs2, hbad, emptyOutcome]
  · simp [verify2fa, hs1, hs2, hbad, emptyOutcome]
  · simp [verify2fa, hs1, hs2, hbad, emptyOutcome]
  · simp [verify2fa, hs1, hs2, hbad, emptyOutcome, noEffects]
  · intro now2 code2 hc1 hc2
    simp [verify2fa, hs1, hs2, hc1, hc2, emptyOutcome]

/-- C4 witness: the sentinel wrong code `"000000"` against a live session is
rejected without state change, and `"123456"` on the same session then
succeeds. -/
theorem verify2fa_invalid_code_keeps_session_witness :
    (verify2fa 1 true "000000" "live-session" "u" false).1.error =
      some "Invalid verification code" ∧
    (verify2fa 1 true "000000" "live-session" "u" false).2 = noEffects ∧
    (verify2fa 2 true "123456" "live-session" "u" false).1.success = some true := by
  have h := verify2fa_invalid_code_keeps_session 1 true "000000" "live-session" "u"
    (by decide) (by decide) (Or.inl rfl)
  exact ⟨h.1, h.2.2.2.1, h.2.2.2.2 2 "123456" (by decide) (by decide)⟩

/-! ## C1 — bearer-token priority in the middleware -/

/-- C1 (spec-modelled): whenever a request carries a bearer token — whatever
headers or query parameters it also carries — a resolvable token yields the
session-channel context with the resolved identity, and an unresolvable token
is a hard 401 `InvalidSession` failure with no fallback to the header or
query channels. -/
theorem extractCredentials_bearer_priority
    (getSession : String → Option (String × String))
    (hasBridgeCredentials : String → Bool) (req : Request) (tok : String)
    (hbearer : bearerToken req = some tok) :
    (∀ ip u, getSession tok = some (ip, u) →
      (extractCredentials getSession hasBridgeCredentials req).1 =
        .ok { bridgeIp := ip, username := u, authMethod := .session }) ∧
    (getSession tok = none →
      (extractCredentials getSession hasBridgeCredentials req).1 =
        .error .invalidSession ∧
      AuthFailure.statusCode .invalidSession = 401) := by
  constructor
  · intro ip u hsess
    simp [extractCredentials, hbearer, hsess]
  · intro hsess
    simp [extractCredentials, hbearer, hsess, AuthFailure.statusCode]

/-- Session lookup for the C1 witness: only `hue_sess_test123` resolves. -/
def wGetSession : String → Option (String × String) :=
  fun t => if t = "hue_sess_test123" then some ("192.168.1.100", "test-user-abc123")
    else none

/-- Bridge cache for the C1 witness: everything already cached. -/
def wHasBridgeCredentials : String → Bool := fun _ => true

/-- C1 witness request: valid bearer token AND header credentials present. -/
def wReqBoth : Request :=
  { authorization := some "Bearer hue_sess_test123", xBridgeIp := some "10.0.0.2",
    xHueUsername := some "header-user", queryBridgeIp := none, queryUsername := none }

/-- C1 witness request: unknown bearer token AND header credentials present. -/
def wReqInvalid : Request :=
  { authorization := some "Bearer invalid-token", xBridgeIp := some "10.0.0.2",
    xHueUsername := some "header-user", queryBridgeIp := none, queryUsername := none }

/-- C1 witness: with both channels present the session channel wins; with an
unknown bearer token the request fails 401 despite usable headers. -/
theorem extractCredentials_bearer_priority_witness :
    (extractCredentials wGetSession wHasBridgeCredentials wReqBoth).1 =
      .ok { bridgeIp := "192.168.1.100", username := "test-user-abc123",
            authMethod := .session } ∧
    ((extractCredentials wGetSession wHasBridgeCredentials wReqInvalid).1 =
        .error .invalidSession ∧
      AuthFailure.statusCode .invalidSession = 401) := by
  have h1 := (extractCredentials_bearer_priority wGetSession wHasBridgeCredentials
    wReqBoth "hue_sess_test123" (by decide)).1 "192.168.1.100" "test-user-abc123" (by decide)
  have h2 := (extractCredentials_bearer_priority wGetSession wHasBridgeCredentials
    wReqInvalid "invalid-token" (by decide)).2 (by decide)
  exact ⟨h1, h2⟩

end HomeControl
